import Mathlib

/-!
# Verification of `scripts/zip.py` (SmartScaleConnect 0.4.2)

Shallow embedding of the archiving script

```python
ZIPNAME = sys.argv[1]
FILENAME = sys.argv[2]
with open(FILENAME, "rb") as f:
    data = f.read()
with zipfile.ZipFile(ZIPNAME, "w") as zfile:
    info = zipfile.ZipInfo(FILENAME)
    info.date_time = time.localtime(time.time())[:6]
    info.compress_type = zipfile.ZIP_DEFLATED
    info.compress_level = 9
    info.create_system = 3  # unix
    info.external_attr = (stat.S_IFREG | 0o755) << 16
    zfile.writestr(info, data)
os.remove(FILENAME)
```

The filesystem is modelled as an association list from path strings to file
values; archive files are modelled structurally (an archive holds its list of
entries, each entry carrying its metadata and its decompressed byte content:
the deflate round trip of the `zipfile` library is reflected by storing the
entry's uncompressed bytes, so "decompressed content" of an entry is its
stored `data`).  Failure modes of the three filesystem operations — read,
archive creation and deletion — are modelled by explicit sets of paths on
which the corresponding operation fails, standing for missing permissions,
absent parent directories and similar conditions.  The `zipfile` library
behaviour is modelled after CPython ≥ 3.13, where `ZipInfo.compress_level`
is a settable attribute honoured by `writestr`.
-/

namespace ZipScript

/-- A byte sequence (each element < 256 in intended use). -/
abbrev Bytes := List Nat

/-- `zipfile.ZIP_DEFLATED`: the numeric code of the deflate method. -/
def ZIP_DEFLATED : Nat := 8

/-- `stat.S_IFREG`: Unix regular-file type bits, `0o100000`. -/
def S_IFREG : Nat := 0o100000

/-- An entry as persisted inside a ZIP archive by `ZipFile.writestr`:
its name, DOS-encoded timestamp, compression parameters, creator system,
external attributes, and its (decompressed) content. -/
structure ZipEntry where
  filename : String
  date_time : Nat × Nat × Nat × Nat × Nat × Nat
  compress_type : Nat
  compress_level : Nat
  create_system : Nat
  external_attr : Nat
  data : Bytes
deriving Repr, DecidableEq

/-- A file on disk: either a regular file holding bytes, or a ZIP archive
holding a list of entries.  The archive is kept structurally; its on-disk
serialization (headers, deflate streams) is not modelled, since no claim
reads an archive back as raw bytes. -/
inductive FSFile where
  | bytes (content : Bytes)
  | zip (entries : List ZipEntry)
deriving Repr, DecidableEq

/-- Raw content returned by `open(path, "rb").read()`.  For a regular file
this is its byte list; for an archive the serialized form is not modelled
(no claim exercises it), so a placeholder is returned. -/
def FSFile.rawBytes : FSFile → Bytes
  | .bytes c => c
  | .zip _ => []

/-- The filesystem: an association list of paths to files (first binding
wins), together with the sets of paths on which reading an existing file
fails (`badRead`, e.g. no read permission), on which creating / writing a
file fails (`badWrite`, e.g. missing or unwritable parent directory), and
on which `os.remove` fails (`badRemove`, e.g. unwritable parent directory). -/
structure FS where
  files : List (String × FSFile)
  badRead : List String
  badWrite : List String
  badRemove : List String
deriving Repr, DecidableEq

/-- First binding of a path in an association list. -/
def lookupFile : List (String × FSFile) → String → Option FSFile
  | [], _ => none
  | (q, f) :: rest, p => if q = p then some f else lookupFile rest p

/-- Drop every binding of a path from an association list. -/
def removeFile : List (String × FSFile) → String → List (String × FSFile)
  | [], _ => []
  | (q, f) :: rest, p =>
      if q = p then removeFile rest p else (q, f) :: removeFile rest p

/-- The file currently at a path, if any. -/
def FS.lookup (fs : FS) (p : String) : Option FSFile :=
  lookupFile fs.files p

/-- Create or overwrite the file at a path (new binding shadows old ones). -/
def FS.write (fs : FS) (p : String) (f : FSFile) : FS :=
  { fs with files := (p, f) :: fs.files }

/-- Delete the file at a path (`os.remove`). -/
def FS.remove (fs : FS) (p : String) : FS :=
  { fs with files := removeFile fs.files p }

/-- The entry list of the archive at a path, when that path holds a ZIP
archive. -/
def FS.zipEntries (fs : FS) (p : String) : Option (List ZipEntry) :=
  match fs.lookup p with
  | some (.zip es) => some es
  | _ => none

/-- The 9-field broken-down local time returned by `time.localtime`:
`(tm_year, tm_mon, tm_mday, tm_hour, tm_min, tm_sec, tm_wday, tm_yday,
tm_isdst)`. -/
structure StructTime where
  tm_year : Nat
  tm_mon : Nat
  tm_mday : Nat
  tm_hour : Nat
  tm_min : Nat
  tm_sec : Nat
  tm_wday : Nat
  tm_yday : Nat
  tm_isdst : Nat
deriving Repr, DecidableEq

/-- `time.localtime(time.time())[:6]`: the first six fields of the
broken-down local time, `(year, month, day, hour, minute, second)` —
the seconds field is included. -/
def localtimeSix (t : StructTime) : Nat × Nat × Nat × Nat × Nat × Nat :=
  (t.tm_year, t.tm_mon, t.tm_mday, t.tm_hour, t.tm_min, t.tm_sec)

/-- The mutable fields of a `zipfile.ZipInfo` object that the script sets
(lines 14-19 of `zip.py`). -/
structure ZipInfo where
  filename : String
  date_time : Nat × Nat × Nat × Nat × Nat × Nat
  compress_type : Nat
  compress_level : Nat
  create_system : Nat
  external_attr : Nat
deriving Repr, DecidableEq

/-- `ZipInfo.__init__` terminates the entry name at the first null byte;
otherwise (on a Unix host, where `os.sep = "/"`) the name is stored as
given.  Command-line argument strings can never contain a null byte, so on
any actual invocation this is the identity. -/
def zipInfoFilename (s : String) : String :=
  ⟨s.toList.takeWhile (fun c => !(c == Char.ofNat 0))⟩

/-- The `ZipInfo` value the script constructs for the entry:
`zipfile.ZipInfo(FILENAME)` followed by the five field assignments of
lines 15-19. -/
def scriptInfo (filename : String) (now : StructTime) : ZipInfo :=
  { filename := zipInfoFilename filename
    date_time := localtimeSix now
    compress_type := ZIP_DEFLATED
    compress_level := 9
    create_system := 3
    external_attr := (S_IFREG ||| 0o755) <<< 16 }

/-- `zfile.writestr(info, data)`: the entry persisted into the archive.
The ZIP format stores the timestamp in MS-DOS format, whose seconds field
has 2-second resolution (`zipfile` serializes `dt[5] // 2` and a reader
recovers `(dt[5] // 2) * 2`), so the persisted seconds value is the
original rounded down to an even number.  All other metadata fields are
persisted as set on the `ZipInfo`.  (The model assumes the year lies in
the DOS-representable range 1980-2107, which holds for any current
wall-clock time.) -/
def writestr (info : ZipInfo) (data : Bytes) : ZipEntry :=
  { filename := info.filename
    date_time :=
      (info.date_time.1, info.date_time.2.1, info.date_time.2.2.1,
       info.date_time.2.2.2.1, info.date_time.2.2.2.2.1,
       info.date_time.2.2.2.2.2 - info.date_time.2.2.2.2.2 % 2)
    compress_type := info.compress_type
    compress_level := info.compress_level
    create_system := info.create_system
    external_attr := info.external_attr
    data := data }

/-- The errors the script can terminate with, each propagated unchanged to
the process boundary. -/
inductive ScriptErr where
  /-- `IndexError` from `sys.argv[1]` or `sys.argv[2]`. -/
  | indexError
  /-- `FileNotFoundError` from `open(FILENAME, "rb")`. -/
  | fileNotFound
  /-- `PermissionError` from `open(FILENAME, "rb")` on an unreadable file. -/
  | readError
  /-- `OSError` from `zipfile.ZipFile(ZIPNAME, "w")`. -/
  | writeError
  /-- `OSError` from `os.remove(FILENAME)`. -/
  | removeError
deriving Repr, DecidableEq

/-- Outcome of one invocation: the error it terminated with (if any) and
the filesystem state it left behind. -/
structure RunResult where
  err : Option ScriptErr
  fs : FS
deriving Repr, DecidableEq

/-- One invocation of `zip.py` with argument vector `argv` (index 0 is the
program name, as in `sys.argv`), at local time `now`, on filesystem `fs`.
Mirrors the script line by line: argument access, full read of `FILENAME`,
creation of the archive at `ZIPNAME` with the single entry, deletion of
`FILENAME`. -/
def runScript (argv : List String) (now : StructTime) (fs : FS) : RunResult :=
  match argv[1]? with
  | none => ⟨some .indexError, fs⟩
  | some zipname =>
    match argv[2]? with
    | none => ⟨some .indexError, fs⟩
    | some filename =>
      match fs.lookup filename with
      | none => ⟨some .fileNotFound, fs⟩
      | some file =>
        if filename ∈ fs.badRead then ⟨some .readError, fs⟩
        else
          let data := file.rawBytes
          if zipname ∈ fs.badWrite then ⟨some .writeError, fs⟩
          else
            let fs1 := fs.write zipname (.zip [writestr (scriptInfo filename now) data])
            if filename ∈ fs1.badRemove then ⟨some .removeError, fs1⟩
            else ⟨none, fs1.remove filename⟩

/-! ## Association-list and filesystem lemmas -/

theorem lookupFile_removeFile_self (l : List (String × FSFile)) (p : String) :
    lookupFile (removeFile l p) p = none := by
  induction l with
  | nil => rfl
  | cons a rest ih =>
      obtain ⟨q, f⟩ := a
      by_cases h : q = p
      · simpa [removeFile, h] using ih
      · simpa [removeFile, lookupFile, h] using ih

theorem lookupFile_removeFile_ne (l : List (String × FSFile)) (p q : String)
    (h : p ≠ q) : lookupFile (removeFile l q) p = lookupFile l p := by
  induction l with
  | nil => rfl
  | cons a rest ih =>
      obtain ⟨r, f⟩ := a
      by_cases hr : r = q
      · rw [removeFile, if_pos hr, ih, lookupFile,
            if_neg (fun hc : r = p => h (hc ▸ hr))]
      · rw [removeFile, if_neg hr, lookupFile, lookupFile]
        by_cases hp : r = p
        · rw [if_pos hp, if_pos hp]
        · rw [if_neg hp, if_neg hp, ih]

theorem FS.lookup_write_self (fs : FS) (p : String) (f : FSFile) :
    (fs.write p f).lookup p = some f := by
  simp [FS.write, FS.lookup, lookupFile]

theorem FS.lookup_remove_self (fs : FS) (p : String) :
    (fs.remove p).lookup p = none :=
  lookupFile_removeFile_self fs.files p

theorem FS.lookup_remove_ne (fs : FS) (p q : String) (h : p ≠ q) :
    (fs.remove q).lookup p = fs.lookup p :=
  lookupFile_removeFile_ne fs.files p q h

/-! ## Characterizations of a run -/

/-- When the source file exists and none of the three filesystem operations
is blocked, the run succeeds and the final state is: the single-entry
archive written at `ZIPNAME`, then `FILENAME` removed. -/
theorem runScript_ok (prog A F : String) (now : StructTime) (fs : FS)
    (file : FSFile) (hF : fs.lookup F = some file) (hr : F ∉ fs.badRead)
    (hw : A ∉ fs.badWrite) (hrem : F ∉ fs.badRemove) :
    runScript [prog, A, F] now fs =
      ⟨none,
       (fs.write A (.zip [writestr (scriptInfo F now) file.rawBytes])).remove F⟩ := by
  unfold runScript
  try dsimp only
  rw [show ([prog, A, F] : List String)[1]? = some A from rfl,
      show ([prog, A, F] : List String)[2]? = some F from rfl]
  try dsimp only
  rw [hF]
  try dsimp only
  rw [if_neg hr]
  try dsimp only
  rw [if_neg hw]
  dsimp only [FS.write]
  rw [if_neg hrem]

/-- Conversely, a run that terminated without error on an existing source
file passed all three failure points. -/
theorem runScript_err_none_inv (prog A F : String) (now : StructTime)
    (fs : FS) (file : FSFile) (hF : fs.lookup F = some file)
    (hsucc : (runScript [prog, A, F] now fs).err = none) :
    F ∉ fs.badRead ∧ A ∉ fs.badWrite ∧ F ∉ fs.badRemove := by
  unfold runScript at hsucc
  try dsimp only at hsucc
  rw [show ([prog, A, F] : List String)[1]? = some A from rfl,
      show ([prog, A, F] : List String)[2]? = some F from rfl] at hsucc
  try dsimp only at hsucc
  rw [hF] at hsucc
  try dsimp only at hsucc
  by_cases hr : F ∈ fs.badRead
  · rw [if_pos hr] at hsucc; exact absurd hsucc (by simp)
  · rw [if_neg hr] at hsucc
    by_cases hw : A ∈ fs.badWrite
    · rw [if_pos hw] at hsucc; exact absurd hsucc (by simp)
    · rw [if_neg hw] at hsucc
      by_cases hrem : F ∈ fs.badRemove
      · simp only [FS.write, if_pos hrem] at hsucc
        exact absurd hsucc (by simp)
      · exact ⟨hr, hw, hrem⟩

theorem FS.lookup_write_ne (fs : FS) (p q : String) (f : FSFile)
    (h : p ≠ q) : (fs.write q f).lookup p = fs.lookup p := by
  show lookupFile ((q, f) :: fs.files) p = lookupFile fs.files p
  rw [lookupFile, if_neg (fun hc : q = p => h hc.symm)]

/-- `runScript` on a three-element argument vector, with the argument
accesses resolved. -/
theorem runScript_cons3 (prog A F : String) (now : StructTime) (fs : FS) :
    runScript [prog, A, F] now fs =
      match fs.lookup F with
      | none => ⟨some .fileNotFound, fs⟩
      | some file =>
        if F ∈ fs.badRead then ⟨some .readError, fs⟩
        else if A ∈ fs.badWrite then ⟨some .writeError, fs⟩
        else
          let fs1 := fs.write A (.zip [writestr (scriptInfo F now) file.rawBytes])
          if F ∈ fs1.badRemove then ⟨some .removeError, fs1⟩
          else ⟨none, fs1.remove F⟩ := rfl

/-! ## Concrete fixtures -/

/-- A sample local time whose seconds field is `30`:
`2026-10-12 09:41:30`. -/
def t30 : StructTime := ⟨2026, 10, 12, 9, 41, 30, 0, 284, 0⟩

/-- A filesystem holding one regular file `f` with bytes `[1, 2, 3]` and no
blocked operations. -/
def fs3 : FS := ⟨[("f", .bytes [1, 2, 3])], [], [], []⟩

/-- An empty filesystem: no file exists at any path. -/
def fsMissing : FS := ⟨[], [], [], []⟩

/-- Like `fs3`, but creating a file at `a.zip` fails (e.g. the destination
directory is unwritable). -/
def fsW : FS := ⟨[("f", .bytes [1, 2, 3])], [], ["a.zip"], []⟩

/-- Like `fs3`, but `os.remove` on `f` fails (e.g. the parent directory
became unwritable after the read). -/
def fsR : FS := ⟨[("f", .bytes [1, 2, 3])], [], [], ["f"]⟩

/-! ## Claims -/

/-- C2: the name of the single archive entry the script writes equals the
literal `source_path` string exactly as given on the command line,
directory components included — for every string free of null bytes, which
every command-line argument string is (`execve` arguments are
null-terminated). -/
theorem c2_entry_name (s : String) (now : StructTime) (data : Bytes)
    (h : Char.ofNat 0 ∉ s.toList) :
    (writestr (scriptInfo s now) data).filename = s := by
  show zipInfoFilename s = s
  unfold zipInfoFilename
  have ht : s.toList.takeWhile (fun c => !(c == Char.ofNat 0)) = s.toList := by
    refine List.takeWhile_eq_self_iff.mpr ?_
    intro c hc
    have hne : c ≠ Char.ofNat 0 := fun he => h (he ▸ hc)
    simp [hne]
  rw [ht]
  rcases s with ⟨d⟩
  rfl

theorem c2_witness :
    Char.ofNat 0 ∉ "dir/payload.bin".toList ∧
      (writestr (scriptInfo "dir/payload.bin" t30) [1, 2, 3]).filename =
        "dir/payload.bin" :=
  ⟨by decide, c2_entry_name "dir/payload.bin" t30 [1, 2, 3] (by decide)⟩

/-- C3 counterexample: at a local time whose seconds field is `30`, the
entry's persisted timestamp keeps the seconds value `30`; it is not the
minute-truncated value with a zero seconds field that the claim asserts. -/
theorem c3_counterexample :
    (writestr (scriptInfo "payload.bin" t30) [1, 2, 3]).date_time =
        (2026, 10, 12, 9, 41, 30) ∧
      ((2026, 10, 12, 9, 41, 30) : Nat × Nat × Nat × Nat × Nat × Nat) ≠
        (2026, 10, 12, 9, 41, 0) :=
  ⟨rfl, by decide⟩

/-- C3 (amended): the timestamp persisted on the single archive entry is
the current local wall-clock time at the moment of archiving truncated to
2-second granularity (the seconds field rounded down to an even number, the
DOS timestamp resolution of the ZIP format) — not to whole-minute
granularity: sub-minute precision is retained. -/
theorem c3_entry_timestamp (s : String) (now : StructTime) (data : Bytes) :
    (writestr (scriptInfo s now) data).date_time =
      (now.tm_year, now.tm_mon, now.tm_mday, now.tm_hour, now.tm_min,
       now.tm_sec - now.tm_sec % 2) := rfl

/-- C4: the single archive entry's compression method is deflate
(`ZIP_DEFLATED`) and its compression level is the maximum level 9. -/
theorem c4_compression (s : String) (now : StructTime) (data : Bytes) :
    (writestr (scriptInfo s now) data).compress_type = ZIP_DEFLATED ∧
      (writestr (scriptInfo s now) data).compress_level = 9 :=
  ⟨rfl, rfl⟩

/-- C5: the single archive entry's external attributes hold, in their high
16 bits, Unix regular-file type bits together with permission bits `0o755`
(the low 16 bits being zero), and the entry is tagged as created on a
Unix-like system (`create_system = 3`). -/
theorem c5_external_attr (s : String) (now : StructTime) (data : Bytes) :
    (writestr (scriptInfo s now) data).external_attr =
        (S_IFREG ||| 0o755) <<< 16 ∧
      (writestr (scriptInfo s now) data).external_attr >>> 16 &&& 0o170000 =
        S_IFREG ∧
      (writestr (scriptInfo s now) data).external_attr >>> 16 &&& 0o777 =
        0o755 ∧
      (writestr (scriptInfo s now) data).external_attr &&& 0xFFFF = 0 ∧
      (writestr (scriptInfo s now) data).create_system = 3 := by
  refine ⟨rfl, ?_, ?_, ?_, rfl⟩
  · show (S_IFREG ||| 0o755) <<< 16 >>> 16 &&& 0o170000 = S_IFREG
    decide
  · show (S_IFREG ||| 0o755) <<< 16 >>> 16 &&& 0o777 = 0o755
    decide
  · show (S_IFREG ||| 0o755) <<< 16 &&& 0xFFFF = 0
    decide

/-- C10: the script performs no argument-count validation: with fewer than
two command-line arguments (an argument vector shorter than three entries,
program name included) it fails at argument access with the filesystem
untouched, and with more than two arguments the extra arguments are
ignored: the run is identical to the one on the first two arguments. -/
theorem c10_arguments :
    (∀ (argv : List String) (now : StructTime) (fs : FS),
        argv.length < 3 → runScript argv now fs = ⟨some .indexError, fs⟩) ∧
      (∀ (prog a b : String) (rest : List String) (now : StructTime)
        (fs : FS),
        runScript (prog :: a :: b :: rest) now fs =
          runScript [prog, a, b] now fs) := by
  constructor
  · intro argv now fs h
    rcases argv with _ | ⟨p, _ | ⟨a, _ | ⟨b, rest⟩⟩⟩
    · rfl
    · rfl
    · rfl
    · exfalso
      simp only [List.length_cons] at h
      omega
  · intro prog a b rest now fs
    unfold runScript
    rw [show (prog :: a :: b :: rest)[1]? = some a by simp,
        show (prog :: a :: b :: rest)[2]? = some b by simp,
        show ([prog, a, b] : List String)[1]? = some a by simp,
        show ([prog, a, b] : List String)[2]? = some b by simp]

theorem c10_witness :
    (([] : List String).length < 3 ∧
        runScript [] t30 fs3 = ⟨some .indexError, fs3⟩) ∧
      runScript ["zip.py", "a.zip", "f", "extra"] t30 fs3 =
        runScript ["zip.py", "a.zip", "f"] t30 fs3 :=
  ⟨⟨by decide, c10_arguments.1 [] t30 fs3 (by decide)⟩,
   c10_arguments.2 "zip.py" "a.zip" "f" ["extra"] t30 fs3⟩

/-- C1 counterexample: when `archive_path` and `source_path` are the same
path, a run that raises no error ends with no file at `archive_path` at
all — the final `os.remove` deletes the newly written archive — refuting
the claim's guarantee that after every successful run the archive exists
at `archive_path`. -/
theorem c1_counterexample :
    (runScript ["zip.py", "f", "f"] t30 fs3).err = none ∧
      (runScript ["zip.py", "f", "f"] t30 fs3).fs.lookup "f" = none := by
  decide

/-- C1 (amended): for every existing readable source file with content `C`,
provided `archive_path` and `source_path` are distinct paths, a successful
run leaves at `archive_path` an archive containing exactly one entry whose
decompressed content equals `C` byte-for-byte, and `source_path` no longer
exists on the filesystem. -/
theorem c1_archive_and_remove (prog A F : String) (now : StructTime)
    (fs : FS) (C : Bytes) (hAF : A ≠ F)
    (hF : fs.lookup F = some (.bytes C))
    (hsucc : (runScript [prog, A, F] now fs).err = none) :
    (∃ e, (runScript [prog, A, F] now fs).fs.zipEntries A = some [e] ∧
        e.data = C) ∧
      (runScript [prog, A, F] now fs).fs.lookup F = none := by
  obtain ⟨hr, hw, hrem⟩ := runScript_err_none_inv prog A F now fs _ hF hsucc
  rw [runScript_ok prog A F now fs _ hF hr hw hrem]
  refine ⟨⟨writestr (scriptInfo F now) (FSFile.bytes C).rawBytes, ?_, rfl⟩,
          FS.lookup_remove_self _ _⟩
  unfold FS.zipEntries
  rw [FS.lookup_remove_ne _ _ _ hAF, FS.lookup_write_self]

theorem c1_witness :
    ("a.zip" : String) ≠ "f" ∧ fs3.lookup "f" = some (.bytes [1, 2, 3]) ∧
      (runScript ["zip.py", "a.zip", "f"] t30 fs3).err = none ∧
      ((∃ e, (runScript ["zip.py", "a.zip", "f"] t30 fs3).fs.zipEntries
            "a.zip" = some [e] ∧ e.data = [1, 2, 3]) ∧
        (runScript ["zip.py", "a.zip", "f"] t30 fs3).fs.lookup "f" = none) :=
  ⟨by decide, by decide, by decide,
   c1_archive_and_remove "zip.py" "a.zip" "f" t30 fs3 [1, 2, 3] (by decide)
     (by decide) (by decide)⟩

/-- C6: when the source file does not exist, or exists but cannot be read,
the run fails and leaves the filesystem exactly as it was — in particular
no archive is created at `archive_path` (the source is read fully before
the archive is opened for writing). -/
theorem c6_read_failure (prog A F : String) (now : StructTime) (fs : FS)
    (h : fs.lookup F = none ∨ F ∈ fs.badRead) :
    (runScript [prog, A, F] now fs).err ≠ none ∧
      (runScript [prog, A, F] now fs).fs = fs := by
  rw [runScript_cons3]
  rcases h with h | h
  · rw [h]
    exact ⟨by simp, rfl⟩
  · cases hlook : fs.lookup F with
    | none => exact ⟨by simp, rfl⟩
    | some file =>
        refine ⟨?_, ?_⟩ <;> simp [if_pos h]

theorem c6_witness :
    (fsMissing.lookup "f" = none ∨ "f" ∈ fsMissing.badRead) ∧
      ((runScript ["zip.py", "a.zip", "f"] t30 fsMissing).err ≠ none ∧
        (runScript ["zip.py", "a.zip", "f"] t30 fsMissing).fs = fsMissing) :=
  ⟨Or.inl rfl,
   c6_read_failure "zip.py" "a.zip" "f" t30 fsMissing (Or.inl rfl)⟩

/-- C7: when the archive cannot be written (e.g. the destination directory
does not exist or is unwritable), the run fails with the write error and
the filesystem is unchanged: the source file still exists with its
original content, since deletion only happens after a successful archive
write. -/
theorem c7_write_failure (prog A F : String) (now : StructTime) (fs : FS)
    (C : Bytes) (hF : fs.lookup F = some (.bytes C))
    (hr : F ∉ fs.badRead) (hw : A ∈ fs.badWrite) :
    (runScript [prog, A, F] now fs).err = some .writeError ∧
      (runScript [prog, A, F] now fs).fs = fs ∧
      (runScript [prog, A, F] now fs).fs.lookup F = some (.bytes C) := by
  have hstep : runScript [prog, A, F] now fs = ⟨some .writeError, fs⟩ := by
    simp only [runScript_cons3, hF, if_neg hr, if_pos hw]
  rw [hstep]
  exact ⟨rfl, rfl, hF⟩

theorem c7_witness :
    fsW.lookup "f" = some (.bytes [1, 2, 3]) ∧ "f" ∉ fsW.badRead ∧
      "a.zip" ∈ fsW.badWrite ∧
      ((runScript ["zip.py", "a.zip", "f"] t30 fsW).err =
          some .writeError ∧
        (runScript ["zip.py", "a.zip", "f"] t30 fsW).fs = fsW ∧
        (runScript ["zip.py", "a.zip", "f"] t30 fsW).fs.lookup "f" =
          some (.bytes [1, 2, 3])) :=
  ⟨by decide, by decide, by decide,
   c7_write_failure "zip.py" "a.zip" "f" t30 fsW [1, 2, 3] (by decide)
     (by decide) (by decide)⟩

/-- C8 counterexample: when `archive_path` equals `source_path` and the
final deletion fails, the run does fail with the filesystem error, but the
"original file at source_path" is gone: the path now holds the archive
that overwrote it, not the original bytes — refuting the claim's guarantee
that both the archive and the original file are left behind on every such
invocation. -/
theorem c8_counterexample :
    (runScript ["zip.py", "f", "f"] t30 fsR).err = some .removeError ∧
      (runScript ["zip.py", "f", "f"] t30 fsR).fs.lookup "f" ≠
        some (.bytes [1, 2, 3]) := by
  decide

/-- C8 (amended): when deleting `source_path` fails after the archive has
been written, and `archive_path` is a path distinct from `source_path`,
the run fails with the filesystem error and leaves both the completed
single-entry archive at `archive_path` and the original file, content
unchanged, at `source_path`; no rollback of the archive is performed. -/
theorem c8_remove_failure (prog A F : String) (now : StructTime) (fs : FS)
    (C : Bytes) (hAF : A ≠ F) (hF : fs.lookup F = some (.bytes C))
    (hr : F ∉ fs.badRead) (hw : A ∉ fs.badWrite)
    (hrem : F ∈ fs.badRemove) :
    (runScript [prog, A, F] now fs).err = some .removeError ∧
      (∃ e, (runScript [prog, A, F] now fs).fs.zipEntries A = some [e] ∧
        e.data = C) ∧
      (runScript [prog, A, F] now fs).fs.lookup F = some (.bytes C) := by
  have hstep : runScript [prog, A, F] now fs =
      ⟨some .removeError,
       fs.write A (.zip [writestr (scriptInfo F now) C])⟩ := by
    simp only [runScript_cons3, hF, if_neg hr, if_neg hw, FSFile.rawBytes,
      FS.write, if_pos hrem]
  rw [hstep]
  refine ⟨rfl, ⟨writestr (scriptInfo F now) C, ?_, rfl⟩, ?_⟩
  · unfold FS.zipEntries
    rw [FS.lookup_write_self]
  · rw [FS.lookup_write_ne _ _ _ _ (Ne.symm hAF), hF]

theorem c8_witness :
    ("a.zip" : String) ≠ "f" ∧
      fsR.lookup "f" = some (.bytes [1, 2, 3]) ∧ "f" ∈ fsR.badRemove ∧
      ((runScript ["zip.py", "a.zip", "f"] t30 fsR).err =
          some .removeError ∧
        (∃ e, (runScript ["zip.py", "a.zip", "f"] t30 fsR).fs.zipEntries
          "a.zip" = some [e] ∧ e.data = [1, 2, 3]) ∧
        (runScript ["zip.py", "a.zip", "f"] t30 fsR).fs.lookup "f" =
          some (.bytes [1, 2, 3])) :=
  ⟨by decide, by decide, by decide,
   c8_remove_failure "zip.py" "a.zip" "f" t30 fsR [1, 2, 3] (by decide)
     (by decide) (by decide) (by decide) (by decide)⟩

/-- C9: when `archive_path` and `source_path` are the same path, the final
deletion removes the newly created archive itself: a run that raises no
error ends with no file at that path at all, so the guarantee that
`archive_path` exists after successful completion does not hold there. -/
theorem c9_same_path (prog F : String) (now : StructTime) (fs : FS)
    (C : Bytes) (hF : fs.lookup F = some (.bytes C)) (hr : F ∉ fs.badRead)
    (hw : F ∉ fs.badWrite) (hrem : F ∉ fs.badRemove) :
    (runScript [prog, F, F] now fs).err = none ∧
      (runScript [prog, F, F] now fs).fs.lookup F = none := by
  rw [runScript_ok prog F F now fs _ hF hr hw hrem]
  exact ⟨rfl, FS.lookup_remove_self _ _⟩

theorem c9_witness :
    fs3.lookup "f" = some (.bytes [1, 2, 3]) ∧
      ((runScript ["zip.py", "f", "f"] t30 fs3).err = none ∧
        (runScript ["zip.py", "f", "f"] t30 fs3).fs.lookup "f" = none) :=
  ⟨by decide,
   c9_same_path "zip.py" "f" t30 fs3 [1, 2, 3] (by decide) (by decide)
     (by decide) (by decide)⟩

end ZipScript
